import Mathlib

/-!
Verification of the stm32plus slice consisting of
`lib/src/dma/f1/interrupts/Dma1Channel4InterruptHandler.cpp` and
`lib/include/net/datalink/mac/MacBase.h`, as a shallow embedding.
-/

/- ## DMA1 channel 4 interrupt handler

`DMA1_Channel4_IRQHandler` reads the three interrupt pending bits of DMA1
channel 4 (transfer complete `TC4`, half transfer `HT4`, transfer error
`TE4`), raises the matching `DmaEventType` for the first one found set, in
that order, clears that pending bit, and finishes with a `__DSB` barrier.
We model the hardware pending bits as three booleans and the handler as a
function returning the list of actions it performs together with the
updated pending bits. -/

/-- Event types raised by the DMA interrupt handler, from `DmaEventType`. -/
inductive DmaEventType where
  | EVENT_COMPLETE
  | EVENT_HALF_COMPLETE
  | EVENT_TRANSFER_ERROR
deriving DecidableEq, Repr

/-- The three interrupt pending bits of DMA1 channel 4 that the handler
reads and clears (`DMA1_IT_TC4`, `DMA1_IT_HT4`, `DMA1_IT_TE4`). -/
inductive Dma1Ch4Bit where
  | TC4
  | HT4
  | TE4
deriving DecidableEq, Repr

/-- The hardware interrupt status for DMA1 channel 4: one pending flag per
interrupt source, as read by `DMA_GetITStatus`. -/
structure Dma1Channel4Status where
  tc4 : Bool
  ht4 : Bool
  te4 : Bool
deriving DecidableEq, Repr

/-- Observable actions an interrupt handler can perform.  `raiseEvent` is a
call to `DmaInterruptEventSender.raiseEvent`, `clearPendingBit` a call to
`DMA_ClearITPendingBit`, `dsb` the final `__DSB()` barrier.  `sleep` and
`alloc` are in the alphabet so that their absence from a handler's trace
can be stated; the embedded handler never emits them. -/
inductive IrqAction where
  | raiseEvent (e : DmaEventType)
  | clearPendingBit (b : Dma1Ch4Bit)
  | dsb
  | sleep
  | alloc
deriving DecidableEq, Repr

/-- The event the handler raises when it services a given pending bit. -/
def eventForBit : Dma1Ch4Bit → DmaEventType
  | .TC4 => .EVENT_COMPLETE
  | .HT4 => .EVENT_HALF_COMPLETE
  | .TE4 => .EVENT_TRANSFER_ERROR

/-- Shallow embedding of `DMA1_Channel4_IRQHandler` (the `if` / `else if`
chain of the C source): test `TC4`, then `HT4`, then `TE4`; for the first
bit found set, raise its event and then clear that pending bit; always end
with the `__DSB` barrier.  Returns the action trace and the pending bits
after the call. -/
def DMA1_Channel4_IRQHandler (s : Dma1Channel4Status) :
    List IrqAction × Dma1Channel4Status :=
  if s.tc4 then
    ([.raiseEvent .EVENT_COMPLETE, .clearPendingBit .TC4, .dsb],
     { s with tc4 := false })
  else if s.ht4 then
    ([.raiseEvent .EVENT_HALF_COMPLETE, .clearPendingBit .HT4, .dsb],
     { s with ht4 := false })
  else if s.te4 then
    ([.raiseEvent .EVENT_TRANSFER_ERROR, .clearPendingBit .TE4, .dsb],
     { s with te4 := false })
  else
    ([.dsb], s)

/-- The action trace of one handler invocation. -/
def irqActions (s : Dma1Channel4Status) : List IrqAction :=
  (DMA1_Channel4_IRQHandler s).1

/-- The pending bits after one handler invocation. -/
def irqAfter (s : Dma1Channel4Status) : Dma1Channel4Status :=
  (DMA1_Channel4_IRQHandler s).2

/-- The events raised during one handler invocation, in order. -/
def irqEvents (s : Dma1Channel4Status) : List DmaEventType :=
  (irqActions s).filterMap fun a =>
    match a with
    | .raiseEvent e => some e
    | _ => none

/-- The events raised over `n` consecutive handler invocations starting
from status `s` (no new hardware flags arrive in between). -/
def irqEventsIter : Nat → Dma1Channel4Status → List DmaEventType
  | 0, _ => []
  | n + 1, s => irqEvents s ++ irqEventsIter n (irqAfter s)

/-- Whether a given pending flag is set in a status word. -/
def bitSet (s : Dma1Channel4Status) : Dma1Ch4Bit → Bool
  | .TC4 => s.tc4
  | .HT4 => s.ht4
  | .TE4 => s.te4

/- ## MacBase (lib/include/net/datalink/mac/MacBase.h) -/

/-- Error codes generated by `MacBase` (the anonymous `enum` of the header,
starting at `E_PHY_WRITE_TIMEOUT=1` with each later tag one larger). -/
def E_PHY_WRITE_TIMEOUT : Nat := 1

/-- `E_PHY_READ_TIMEOUT` from the `MacBase` error enum. -/
def E_PHY_READ_TIMEOUT : Nat := 2

/-- `E_PHY_WAIT_TIMEOUT` from the `MacBase` error enum. -/
def E_PHY_WAIT_TIMEOUT : Nat := 3

/-- `E_CRC` from the `MacBase` error enum. -/
def E_CRC : Nat := 4

/-- `E_TOO_BIG` from the `MacBase` error enum. -/
def E_TOO_BIG : Nat := 5

/-- `E_TRANSMIT_ERROR` from the `MacBase` error enum. -/
def E_TRANSMIT_ERROR : Nat := 6

/-- `E_RECEIVE` from the `MacBase` error enum. -/
def E_RECEIVE : Nat := 7

/-- `E_WATCHDOG` from the `MacBase` error enum. -/
def E_WATCHDOG : Nat := 8

/-- `E_LATE_COLLISION` from the `MacBase` error enum. -/
def E_LATE_COLLISION : Nat := 9

/-- `E_IP_HEADER_CHECKSUM` from the `MacBase` error enum. -/
def E_IP_HEADER_CHECKSUM : Nat := 10

/-- `E_OVERFLOW` from the `MacBase` error enum. -/
def E_OVERFLOW : Nat := 11

/-- `E_TRUNCATED` from the `MacBase` error enum. -/
def E_TRUNCATED : Nat := 12

/-- `E_PAYLOAD` from the `MacBase` error enum. -/
def E_PAYLOAD : Nat := 13

/-- `E_HEADER` from the `MacBase` error enum. -/
def E_HEADER : Nat := 14

/-- `E_UNSUPPORTED_802_3_FRAME_FORMAT` from the `MacBase` error enum. -/
def E_UNSUPPORTED_802_3_FRAME_FORMAT : Nat := 15

/-- `E_BUSY` from the `MacBase` error enum. -/
def E_BUSY : Nat := 16

/-- `E_TRANSMIT_PROCESS_STOPPED` from the `MacBase` error enum. -/
def E_TRANSMIT_PROCESS_STOPPED : Nat := 17

/-- `E_TRANSMIT_JABBER_TIMEOUT` from the `MacBase` error enum. -/
def E_TRANSMIT_JABBER_TIMEOUT : Nat := 18

/-- `E_RECEIVE_OVERFLOW` from the `MacBase` error enum. -/
def E_RECEIVE_OVERFLOW : Nat := 19

/-- `E_TRANSMIT_UNDERFLOW` from the `MacBase` error enum. -/
def E_TRANSMIT_UNDERFLOW : Nat := 20

/-- `E_RECEIVE_BUFFER_UNAVAILABLE` from the `MacBase` error enum. -/
def E_RECEIVE_BUFFER_UNAVAILABLE : Nat := 21

/-- `E_RECEIVE_PROCESS_STOPPED` from the `MacBase` error enum. -/
def E_RECEIVE_PROCESS_STOPPED : Nat := 22

/-- `E_RECEIVE_WATCHDOG_TIMEOUT` from the `MacBase` error enum. -/
def E_RECEIVE_WATCHDOG_TIMEOUT : Nat := 23

/-- `E_FATAL_BUS_ERROR` from the `MacBase` error enum. -/
def E_FATAL_BUS_ERROR : Nat := 24

/-- `E_NO_FLASH_DATA` from the `MacBase` error enum. -/
def E_NO_FLASH_DATA : Nat := 25

/-- `E_UNSPECIFIED` from the `MacBase` error enum. -/
def E_UNSPECIFIED : Nat := 26

/-- All tags of the `MacBase` error enum, in declaration order. -/
def macBaseErrorCodes : List Nat :=
  [E_PHY_WRITE_TIMEOUT, E_PHY_READ_TIMEOUT, E_PHY_WAIT_TIMEOUT, E_CRC,
   E_TOO_BIG, E_TRANSMIT_ERROR, E_RECEIVE, E_WATCHDOG, E_LATE_COLLISION,
   E_IP_HEADER_CHECKSUM, E_OVERFLOW, E_TRUNCATED, E_PAYLOAD, E_HEADER,
   E_UNSUPPORTED_802_3_FRAME_FORMAT, E_BUSY, E_TRANSMIT_PROCESS_STOPPED,
   E_TRANSMIT_JABBER_TIMEOUT, E_RECEIVE_OVERFLOW, E_TRANSMIT_UNDERFLOW,
   E_RECEIVE_BUFFER_UNAVAILABLE, E_RECEIVE_PROCESS_STOPPED,
   E_RECEIVE_WATCHDOG_TIMEOUT, E_FATAL_BUS_ERROR, E_NO_FLASH_DATA,
   E_UNSPECIFIED]

/-- A 6-byte MAC address (`MacAddress` with its `uint8_t macAddress[6]`);
bytes are naturals reduced mod 256 where written. -/
structure MacAddress where
  macAddress : Fin 6 → Nat
deriving DecidableEq

/-- Configuration for the MAC base class (`MacBase::Parameters`). -/
structure Parameters where
  mac_mtu : Nat
  mac_address : MacAddress
  mac_txWaitMillis : Nat
  mac_receiveBufferCount : Nat
  mac_transmitBufferCount : Nat
deriving DecidableEq

/-- The `Parameters()` default constructor: MTU 1518, MAC address
02-00-00-00-00-00 (locally-administered bit in the first byte), 200 ms
transmit wait, and 5 receive and 5 transmit buffers. -/
def Parameters.defaults : Parameters :=
  { mac_mtu := 1518
    mac_address := ⟨fun i => if i = 0 then 2 else 0⟩
    mac_txWaitMillis := 200
    mac_receiveBufferCount := 5
    mac_transmitBufferCount := 5 }

/-- The state of a `MacBase` object that the embedded operations read:
its stored `_params` member. -/
structure MacBase where
  _params : Parameters

/-- `MacBase::getDatalinkTransmitHeaderSize`: the size of 2 MAC addresses
and the EtherType field, a total of 14 bytes. -/
def MacBase.getDatalinkTransmitHeaderSize (_m : MacBase) : Nat := 14

/-- `MacBase::getDatalinkMtuSize`: returns the stored `_params.mac_mtu`. -/
def MacBase.getDatalinkMtuSize (m : MacBase) : Nat :=
  m._params.mac_mtu

/- ## Transmit path (spec-modelled where the body is not in the sources) -/

/-- Notifications the driver core emits to the notification sink
(`onSendComplete`, `onFrameReceived`, `onError` of spec §6). -/
inductive MacNotification where
  | transmitComplete
  | frameReceived
  | errorNotice (code : Nat)
deriving DecidableEq, Repr

/-- Synchronous outcome of a `sendBuffer` call: success, or an error code
returned to the caller. -/
inductive SendResult where
  | ok
  | err (code : Nat)
deriving DecidableEq, Repr

/-- Modelled from the spec: the frame-size admission step of
`MacBase::sendBuffer`, whose body is not among the given sources (only its
declaration in MacBase.h).  A frame larger than the MTU plus the 14-byte
header is rejected synchronously with `E_TOO_BIG`; otherwise the slot is
claimed and DMA started, with no notification emitted by the call itself
(the transmit-complete notification arrives later from the transmit
interrupt). -/
def sendAdmit (p : Parameters) (bufferSize : Nat) :
    SendResult × List MacNotification :=
  if bufferSize > p.mac_mtu + 14 then (.err E_TOO_BIG, [])
  else (.ok, [])

/-- Modelled from the spec: `MacBase::sendBuffer` (declared at MacBase.h
line 130; body not among the given sources).  Per spec §4.3/§5/§7 the call
busy-waits up to `mac_txWaitMillis` milliseconds for a prior pending send
to complete and fails synchronously with `E_BUSY` if it does not free in
time; `priorClearsAfter` abstracts the number of milliseconds until the
prior send frees its slot (`none` when no send is pending).  An accepted
frame then passes the `sendAdmit` size check.  The result is the
synchronous outcome paired with the notifications emitted by the call
itself; a rejected call emits none. -/
def sendBuffer (p : Parameters) (priorClearsAfter : Option Nat)
    (bufferSize : Nat) : SendResult × List MacNotification :=
  match priorClearsAfter with
  | some t =>
    if t > p.mac_txWaitMillis then (.err E_BUSY, [])
    else sendAdmit p bufferSize
  | none => sendAdmit p bufferSize

/- ## Driver lifecycle and the static instance pointer -/

/-- The global state relevant to interrupt dispatch: the value of the
static `MacBase::_instance` pointer (object identities are naturals),
whether the interrupt sources have been enabled, and the stored
parameters.  `none` models a null/unset pointer. -/
structure DriverState where
  instancePtr : Option Nat
  interruptsEnabled : Bool
  storedParams : Option Parameters
deriving DecidableEq

/-- Steps of the driver lifecycle.  `construct objId` is `MacBase::MacBase()`,
which performs `_instance=this` (MacBase.h lines 154-156).  `initialiseStep`
is `MacBase::initialise`, modelled from the spec: validates and stores the
`Parameters` (its body is not among the given sources).  `startupStep` is
`MacBase::startup`, modelled from the spec: arms the DMA engine and enables
the configured interrupt sources.  `irqRead` is an interrupt entry point
reaching the driver through a single read of `_instance`, writing
nothing. -/
inductive LifecycleStep where
  | construct (objId : Nat)
  | initialiseStep (p : Parameters)
  | startupStep
  | irqRead
deriving DecidableEq

/-- Effect of one lifecycle step on the driver state. -/
def lifecycleStep : DriverState → LifecycleStep → DriverState
  | s, .construct objId => { s with instancePtr := some objId }
  | s, .initialiseStep p => { s with storedParams := some p }
  | s, .startupStep => { s with interruptsEnabled := true }
  | s, .irqRead => s

/-- Run a list of lifecycle steps from a starting state. -/
def lifecycleRun (s : DriverState) : List LifecycleStep → DriverState
  | [] => s
  | st :: rest => lifecycleRun (lifecycleStep s st) rest

/-- Interrupt-context steps never change the driver state, in particular
they never write the instance pointer. -/
lemma lifecycleRun_irqReads (s : DriverState) (n : Nat) :
    lifecycleRun s (List.replicate n .irqRead) = s := by
  induction n with
  | zero => rfl
  | succ k ih => simpa [List.replicate_succ, lifecycleRun, lifecycleStep] using ih

/- ## Theorems -/

/-- C2: in every invocation of `DMA1_Channel4_IRQHandler`, whenever a
pending bit is cleared, the corresponding event was raised earlier in the
same invocation: the trace is exactly raise-then-clear-then-barrier for
that bit, so the clear follows the notification and no bit is cleared
without its event having been raised. -/
theorem dma1ch4_clear_follows_raise (s : Dma1Channel4Status) (b : Dma1Ch4Bit)
    (h : IrqAction.clearPendingBit b ∈ irqActions s) :
    irqActions s = [.raiseEvent (eventForBit b), .clearPendingBit b, .dsb] := by
  obtain ⟨tc, ht, te⟩ := s
  revert h
  cases b <;> cases tc <;> cases ht <;> cases te <;> decide

/-- Witness for C2 at a concrete status word with only `TC4` pending. -/
theorem dma1ch4_clear_follows_raise_witness :
    irqActions ⟨true, false, false⟩ =
      [.raiseEvent (eventForBit .TC4), .clearPendingBit .TC4, .dsb] :=
  dma1ch4_clear_follows_raise ⟨true, false, false⟩ .TC4 (by decide)

/-- C1 counterexample: with both `TC4` and `HT4` pending in the same
status word, the handler raises only `EVENT_COMPLETE`; the half-transfer
flag is set yet no `EVENT_HALF_COMPLETE` notification is raised in that
invocation, so the handler does not report one notification per set
bit. -/
theorem dma1ch4_multi_bit_single_report :
    bitSet ⟨true, true, false⟩ .HT4 = true ∧
    DmaEventType.EVENT_HALF_COMPLETE ∉ irqEvents ⟨true, true, false⟩ ∧
    irqEvents ⟨true, true, false⟩ = [.EVENT_COMPLETE] := by
  decide

/-- C1 amended: within a single invocation only the first set flag (in
`TC4`, `HT4`, `TE4` priority order) is reported, but the other set bits
stay pending, so across three consecutive invocations every flag that was
initially set is reported exactly once and no event is reported for an
unset flag. -/
theorem dma1ch4_all_bits_eventually_reported (s : Dma1Channel4Status) :
    ∀ b : Dma1Ch4Bit,
      (irqEventsIter 3 s).count (eventForBit b) =
        (if bitSet s b then 1 else 0) := by
  obtain ⟨tc, ht, te⟩ := s
  intro b
  cases tc <;> cases ht <;> cases te <;> cases b <;> decide

/-- C9: each invocation of the handler raises at most one event, testing
`TC4`, `HT4`, `TE4` in that fixed order and servicing only the first flag
found set: that flag's event is raised and its pending bit cleared while
every other flag is left unchanged; when no flag is set nothing is
raised. -/
theorem dma1ch4_first_flag_priority (s : Dma1Channel4Status) :
    (irqEvents s).length ≤ 1 ∧
    (s.tc4 = true →
      irqEvents s = [.EVENT_COMPLETE] ∧
        irqAfter s = { s with tc4 := false }) ∧
    (s.tc4 = false → s.ht4 = true →
      irqEvents s = [.EVENT_HALF_COMPLETE] ∧
        irqAfter s = { s with ht4 := false }) ∧
    (s.tc4 = false → s.ht4 = false → s.te4 = true →
      irqEvents s = [.EVENT_TRANSFER_ERROR] ∧
        irqAfter s = { s with te4 := false }) ∧
    (s.tc4 = false → s.ht4 = false → s.te4 = false → irqEvents s = []) := by
  obtain ⟨tc, ht, te⟩ := s
  cases tc <;> cases ht <;> cases te <;> decide

/-- Witness for C9 at the status word with all three flags pending: only
the transfer-complete event is raised and only `TC4` is cleared. -/
theorem dma1ch4_first_flag_priority_witness :
    irqEvents ⟨true, true, true⟩ = [.EVENT_COMPLETE] ∧
    irqAfter ⟨true, true, true⟩ =
      { (⟨true, true, true⟩ : Dma1Channel4Status) with tc4 := false } :=
  (dma1ch4_first_flag_priority ⟨true, true, true⟩).2.1 rfl

/-- C8: every invocation of the handler performs a bounded trace of at
most three actions (one event raise, one pending-bit clear, the final
barrier), and that trace never contains a sleep or an allocation; the
handler is a total function of the status word, so it terminates on every
input. -/
theorem dma1ch4_bounded_nonblocking (s : Dma1Channel4Status) :
    (irqActions s).length ≤ 3 ∧
    IrqAction.sleep ∉ irqActions s ∧
    IrqAction.alloc ∉ irqActions s := by
  obtain ⟨tc, ht, te⟩ := s
  cases tc <;> cases ht <;> cases te <;> decide

/-- C4: `getDatalinkTransmitHeaderSize` returns exactly 14 for every
`MacBase` instance, whatever `Parameters` it stores: 2 six-byte MAC
addresses plus a 2-byte EtherType. -/
theorem getDatalinkTransmitHeaderSize_eq_14 (m : MacBase) :
    m.getDatalinkTransmitHeaderSize = 14 :=
  rfl

/-- C5: the `MacBase` error enum holds exactly 26 tags, one per kind of
the spec's taxonomy, with all tag values pairwise distinct and nonzero. -/
theorem macBaseErrorCodes_distinct_nonzero :
    macBaseErrorCodes.length = 26 ∧
    macBaseErrorCodes.Nodup ∧
    macBaseErrorCodes.all (fun c => c != 0) = true := by
  decide

/-- C7: the `Parameters()` default constructor stores MTU 1518, the
locally-administered MAC address 02-00-00-00-00-00 (first byte 2, all
later bytes 0) and a 200 ms transmit wait, and `getDatalinkMtuSize`
returns whatever `mac_mtu` the instance stores. -/
theorem parameters_defaults_spec :
    Parameters.defaults.mac_mtu = 1518 ∧
    Parameters.defaults.mac_address.macAddress 0 = 2 ∧
    (∀ i : Fin 6, i ≠ 0 → Parameters.defaults.mac_address.macAddress i = 0) ∧
    Parameters.defaults.mac_txWaitMillis = 200 ∧
    (∀ m : MacBase, m.getDatalinkMtuSize = m._params.mac_mtu) := by
  refine ⟨rfl, rfl, ?_, rfl, fun m => rfl⟩
  decide

/-- Witness for C7: byte 3 of the default MAC address is 0. -/
theorem parameters_defaults_spec_witness :
    Parameters.defaults.mac_address.macAddress 3 = 0 :=
  parameters_defaults_spec.2.2.1 3 (by decide)

/-- C10: the `Parameters()` default constructor sets both buffer counts
to 5 (the ST reference driver default). -/
theorem parameters_default_buffer_counts :
    Parameters.defaults.mac_receiveBufferCount = 5 ∧
    Parameters.defaults.mac_transmitBufferCount = 5 := by
  decide

/-- C3: `sendBuffer` fails synchronously with `E_BUSY` when the prior
send does not complete within `mac_txWaitMillis`, fails synchronously with
`E_TOO_BIG` when the frame exceeds MTU plus the 14-byte header, and a
rejected call emits no transmit-complete notification. -/
theorem sendBuffer_sync_errors (p : Parameters) (prior : Option Nat)
    (bufferSize : Nat) :
    (∀ t, prior = some t → t > p.mac_txWaitMillis →
      (sendBuffer p prior bufferSize).1 = .err E_BUSY) ∧
    ((∀ t, prior = some t → t ≤ p.mac_txWaitMillis) →
      bufferSize > p.mac_mtu + 14 →
      (sendBuffer p prior bufferSize).1 = .err E_TOO_BIG) ∧
    (∀ c, (sendBuffer p prior bufferSize).1 = .err c →
      MacNotification.transmitComplete ∉ (sendBuffer p prior bufferSize).2) := by
  refine ⟨?_, ?_, ?_⟩
  · intro t ht hgt
    subst ht
    simp [sendBuffer, hgt]
  · intro hle hbig
    cases prior with
    | none => simp [sendBuffer, sendAdmit, hbig]
    | some t =>
      have h1 : ¬ t > p.mac_txWaitMillis := not_lt.mpr (hle t rfl)
      simp [sendBuffer, sendAdmit, h1, hbig]
  · intro c hc
    cases prior with
    | none =>
      by_cases hbig : bufferSize > p.mac_mtu + 14 <;>
        simp [sendBuffer, sendAdmit, hbig]
    | some t =>
      by_cases hbusy : t > p.mac_txWaitMillis
      · simp [sendBuffer, hbusy]
      · by_cases hbig : bufferSize > p.mac_mtu + 14 <;>
          simp [sendBuffer, sendAdmit, hbusy, hbig]

/-- Witness for C3 at the default parameters: with a prior send still 201
ms from completing (past the 200 ms wait), a 10-byte frame is rejected
with `E_BUSY`. -/
theorem sendBuffer_sync_errors_witness :
    (sendBuffer Parameters.defaults (some 201) 10).1 = .err E_BUSY :=
  (sendBuffer_sync_errors Parameters.defaults (some 201) 10).1 201 rfl
    (by decide)

/-- C6: starting from an unset pointer with interrupts disabled, after
construction (`MacBase::MacBase()` performs `_instance=this`) followed by
`initialise`, the static instance pointer refers to the one live instance;
interrupts are still disabled at that point, so the write happened before
they were enabled; interrupt-context steps perform no write at all; and
after `startup` enables interrupts, any number of interrupt reads still
find the pointer referring to that same instance. -/
theorem macbase_instance_singleton (objId : Nat) (p : Parameters) (n : Nat) :
    (lifecycleRun ⟨none, false, none⟩
        [.construct objId, .initialiseStep p]).instancePtr = some objId ∧
    (lifecycleRun ⟨none, false, none⟩
        [.construct objId, .initialiseStep p]).interruptsEnabled = false ∧
    (∀ s : DriverState, lifecycleStep s .irqRead = s) ∧
    (lifecycleRun ⟨none, false, none⟩
        ([.construct objId, .initialiseStep p, .startupStep] ++
          List.replicate n .irqRead)).instancePtr = some objId := by
  refine ⟨rfl, rfl, fun s => rfl, ?_⟩
  show (lifecycleRun _ (List.replicate n .irqRead)).instancePtr = some objId
  rw [lifecycleRun_irqReads]
  rfl
